import Mathlib

/-!
Verification of the PTP management-message codec, dispatcher and builder
(`msg.h`, `msgCall.cpp` and the SWIG python block) against its
natural-language specification.

Shallow embedding conventions:
* machine integers are `Nat` / `Int` with explicit range side conditions
  (`uint8_t` values are naturals below 256, and so on);
* octet buffers are `List Nat`, every element below 256;
* fallible operations return `Option` / `Except`, or a `Bool` paired with
  the updated state, mirroring the C++ return conventions;
* code whose body is not part of the sources at hand (only declared in
  `msg.h`) is modelled from the specification text and marked
  `Modelled from the spec:` in its doc comment.
-/

namespace Ptpmgmt

/-- Parse/build error taxonomy, embedded from `enum MNG_PARSE_ERROR_e` in
`msg.h`. -/
inductive MNG_PARSE_ERROR_e where
  | MNG_PARSE_ERROR_OK
  | MNG_PARSE_ERROR_MSG
  | MNG_PARSE_ERROR_INVALID_ID
  | MNG_PARSE_ERROR_INVALID_TLV
  | MNG_PARSE_ERROR_SIZE_MISS
  | MNG_PARSE_ERROR_TOO_SMALL
  | MNG_PARSE_ERROR_SIZE
  | MNG_PARSE_ERROR_VAL
  | MNG_PARSE_ERROR_HEADER
  | MNG_PARSE_ERROR_ACTION
  | MNG_PARSE_ERROR_UNSUPPORT
  | MNG_PARSE_ERROR_MEM
  deriving DecidableEq, Repr

/-- Management actions, embedded from `enum actionField_e` in `msg.h`:
GET = 0, SET = 1, RESPONSE = 2, COMMAND = 3, ACKNOWLEDGE = 4. -/
inductive actionField_e where
  | GET
  | SET
  | RESPONSE
  | COMMAND
  | ACKNOWLEDGE
  deriving DecidableEq, Repr

/-- Numeric value of an action, as fixed by the `uint8_t` enumerators of
`actionField_e` in `msg.h`. -/
def actionNum : actionField_e → Nat
  | .GET => 0
  | .SET => 1
  | .RESPONSE => 2
  | .COMMAND => 3
  | .ACKNOWLEDGE => 4

/-- Decode the low action nibble of the management header byte back into an
action; values outside 0..4 are rejected (spec: `ACTION` error). -/
def actionOfNum (n : Nat) : Option actionField_e :=
  match n with
  | 0 => some .GET
  | 1 => some .SET
  | 2 => some .RESPONSE
  | 3 => some .COMMAND
  | 4 => some .ACKNOWLEDGE
  | _ => none

/-- Embeds `struct ClockIdentity_t { uint8_t v[8]; }` from `msg.h`: a fixed array
of eight octets, embedded as eight named octet fields. -/
structure ClockIdentity_t where
  v0 : Nat
  v1 : Nat
  v2 : Nat
  v3 : Nat
  v4 : Nat
  v5 : Nat
  v6 : Nat
  v7 : Nat
  deriving DecidableEq, Repr

/-- Embeds `struct PortIdentity_t` from `msg.h`: clock identity plus a `uint16_t`
port number. -/
structure PortIdentity_t where
  clockIdentity : ClockIdentity_t
  portNumber : Nat
  deriving DecidableEq, Repr

/-- Embeds `struct msgParams` from `msg.h`.  The C++ declaration stores
`domainNumber` and `boundaryHops` as `uint8_t`; the language-neutral API of
the spec lets callers hand in wider integers, so the fields are naturals
here and `updateParams` performs the documented range check. -/
structure msgParams where
  transportSpecific : Nat
  domainNumber : Nat
  boundaryHops : Nat
  isUnicast : Bool
  useLinuxPTPTlvs : Bool
  target : PortIdentity_t
  self_id : PortIdentity_t
  deriving DecidableEq, Repr

/-- The slice of the `message` class state that the runtime-parameter API
touches: the stored `m_prms`. -/
structure message where
  prms : msgParams
  deriving DecidableEq, Repr

/-- Modelled from the spec: the body of `message::updateParams` is not part
of the sources at hand (only its declaration in `msg.h`).  Spec §6:
"replace runtime parameters; succeeds unless `domainNumber` or
`boundaryHops` exceed 255". -/
def updateParams (st : message) (p : msgParams) : message × Bool :=
  if 255 < p.domainNumber ∨ 255 < p.boundaryHops then (st, false)
  else ({ st with prms := p }, true)

/-! ### Builder and dispatcher (`msgCall.cpp`)

The management IDs (`mng_vals_e`) are generated from `ids.h`, which is not
among the sources at hand; IDs are therefore naturals, and the facts the
generated table provides per ID (whether the request payload is empty,
whether the ID has a `UFB` switch case, the typed default value, the user
callbacks) are an explicit environment. -/

/-- A typed management TLV value (`BaseMngTlv`-derived `n##_t`), abstracted
to its payload content. -/
abbrev TlvData := List Nat

/-- Environment of `MessageBulder::buildTlv`: the per-ID facts and the
`Message` entry points it calls.  `cb` is the build callback the virtual
dispatch resolves to (the user override when present, the base default
otherwise); `overridden` records whether the user overrode it, which the
python builder tests via `hasattr`. -/
structure BuildEnv where
  isEmpty : Nat → Bool
  hasCase : Nat → Bool
  defaultVal : Nat → TlvData
  overridden : Nat → Bool
  cb : Nat → message → TlvData → TlvData × Bool
  setAct2 : actionField_e → Nat → message → message × Bool
  setAct3 : actionField_e → Nat → TlvData → message → message × Bool

/-- Builder state: the wrapped message and the owned typed value
(`std::unique_ptr<BaseMngTlv> m_tlv` / python `self.m_tlv`). -/
structure MessageBulder where
  m_msg : message
  m_tlv : Option TlvData
  deriving DecidableEq, Repr

/-- Observable effects of a `buildTlv` call, in order. -/
inductive BuildEv where
  | setAction2 (a : actionField_e) (id : Nat)
  | setAction3 (a : actionField_e) (id : Nat) (d : TlvData)
  | alloc (id : Nat)
  | callback (id : Nat)
  | dealloc (id : Nat)
  deriving DecidableEq, Repr

/-- Whether an effect is a `Message::setAction` call. -/
def BuildEv.isSetAct : BuildEv → Bool
  | .setAction2 _ _ => true
  | .setAction3 _ _ _ => true
  | _ => false

/-- Embeds `MessageBulder::buildTlv` from `msgCall.cpp` lines 52-72, returning the
updated builder, the boolean result, and the effect trace:

* `actionField == GET || m_msg.isEmpty(tlv_id)` → `setAction(action, id)`;
* otherwise, a `UFB` switch case allocates a default `n##_t`, runs the
  build callback `n##_b`, deletes the value on callback failure, and on
  success stores it in `m_tlv` and returns
  `setAction(actionField, tlv_id, tlv)`;
* an ID with no case falls to `default: return false`. -/
def buildTlv (env : BuildEnv) (st : MessageBulder) (actionField : actionField_e)
    (tlv_id : Nat) : MessageBulder × Bool × List BuildEv :=
  if actionField = .GET ∨ env.isEmpty tlv_id then
    let mr := env.setAct2 actionField tlv_id st.m_msg
    ({ st with m_msg := mr.1 }, mr.2, [.setAction2 actionField tlv_id])
  else if env.hasCase tlv_id then
    let d := env.defaultVal tlv_id
    let dr := env.cb tlv_id st.m_msg d
    if dr.2 then
      let mr := env.setAct3 actionField tlv_id dr.1 st.m_msg
      ({ m_msg := mr.1, m_tlv := some dr.1 }, mr.2,
        [.alloc tlv_id, .callback tlv_id, .setAction3 actionField tlv_id dr.1])
    else
      (st, false, [.alloc tlv_id, .callback tlv_id, .dealloc tlv_id])
  else
    (st, false, [])

/-- Embeds `MessageBulder.buildTlv` from the SWIG python block: the GET-or-empty
shortcut, then `tlv_pkg in globals()` (the ID has a generated class, i.e. a
`UFB` case) and `hasattr(self.__class__, callback_name)` (the user overrode
the callback) guard allocation; `cb(msg, tlv) and setAction(...)`
short-circuits, and `self.m_tlv` is only assigned when `setAction`
succeeded. -/
def pyBuildTlv (env : BuildEnv) (st : MessageBulder) (actionField : actionField_e)
    (tlv_id : Nat) : MessageBulder × Bool × List BuildEv :=
  if actionField = .GET ∨ env.isEmpty tlv_id then
    let mr := env.setAct2 actionField tlv_id st.m_msg
    ({ st with m_msg := mr.1 }, mr.2, [.setAction2 actionField tlv_id])
  else if env.hasCase tlv_id ∧ env.overridden tlv_id then
    let d := env.defaultVal tlv_id
    let dr := env.cb tlv_id st.m_msg d
    if dr.2 then
      let mr := env.setAct3 actionField tlv_id dr.1 st.m_msg
      if mr.2 then
        ({ m_msg := mr.1, m_tlv := some dr.1 }, true,
          [.alloc tlv_id, .callback tlv_id, .setAction3 actionField tlv_id dr.1])
      else
        ({ st with m_msg := mr.1 }, false,
          [.alloc tlv_id, .callback tlv_id, .setAction3 actionField tlv_id dr.1])
    else
      (st, false, [.alloc tlv_id, .callback tlv_id])
  else
    (st, false, [])

/-- Environment of `MessageDispatcher::callHadler`: whether an ID has a
`UF` switch case in `ids.h`, whether the user overrode its handler
(`check_inherit` detects an un-overridden `n##_h`), and the ID's name
(`#n`). -/
structure DispatchEnv where
  hasCase : Nat → Bool
  overridden : Nat → Bool
  name : Nat → String

/-- Observable effects of a dispatch. -/
inductive DispatchEv where
  | noTlv
  | noTlvCallBack (name : String)
  | handler (id : Nat) (name : String)
  deriving DecidableEq, Repr

/-- Embeds `MessageDispatcher::callHadler` from `msgCall.cpp` lines 35-47 (GNUC
variant, as compiled): a null TLV goes to `noTlv`; a known ID whose
handler is still the base one goes to `noTlvCallBack(msg, #n)` and
returns; an overridden handler is invoked; an ID with no case falls to
`default:` and `noTlv`. -/
def callHadler (env : DispatchEnv) (tlv_id : Nat) (tlv : Option TlvData) :
    List DispatchEv :=
  match tlv with
  | none => [.noTlv]
  | some _ =>
    if env.hasCase tlv_id then
      if env.overridden tlv_id then
        [.handler tlv_id (env.name tlv_id)]
      else
        [.noTlvCallBack (env.name tlv_id)]
    else
      [.noTlv]

/-! ### Time interval (`msg.h`) -/

/-- Embeds `struct TimeInterval_t` from `msg.h`: the source declares
`uint64_t scaledNanoseconds;`, so the field holds an unsigned 64-bit bit
pattern, embedded as a natural below `2^64`. -/
structure TimeInterval_t where
  scaledNanoseconds : Nat
  deriving DecidableEq, Repr

/-- Embeds `message::getInterval` from `msg.h`:
`return (double)v.scaledNanoseconds / 0x10000;`.  The double arithmetic is
modelled exactly over the rationals: the `uint64_t` field is cast to a
(nonnegative) number and divided by `0x10000 = 65536`. -/
def getInterval (v : TimeInterval_t) : ℚ :=
  (v.scaledNanoseconds : ℚ) / 65536

/-- Two's-complement reading of a 64-bit pattern, as the spec's "signed
64-bit value" interpretation of `scaledNanoseconds`. -/
def toSigned64 (bits : Nat) : Int :=
  if bits < 2 ^ 63 then (bits : Int) else (bits : Int) - 2 ^ 64

/-- The conversion `getInterval` would perform if `scaledNanoseconds` were
the signed 64-bit quantity the spec describes. -/
def getIntervalSigned (v : TimeInterval_t) : ℚ :=
  (toSigned64 v.scaledNanoseconds : ℚ) / 65536

/-! ### 48-bit primitive codec and `Timestamp_t`

`message::proc48(uint64_t&)`, `proc48(int64_t&)` and `proc(Timestamp_t&)`
are only declared in `msg.h`; their bodies are not among the sources at
hand and are modelled from the spec.  The `INT48`/`UINT48` bounds are the
macros of `msg.h` lines 20-28. -/

/-- Embeds `INT48_MIN` from `msg.h`: `(-INT64_C(0x7fffffffffff) - 1)`. -/
def INT48_MIN : Int := -0x7fffffffffff - 1

/-- Embeds `INT48_MAX` from `msg.h`: `INT64_C(0x7fffffffffff)`. -/
def INT48_MAX : Int := 0x7fffffffffff

/-- Embeds `UINT48_MAX` from `msg.h`: `UINT64_C(0xffffffffffff)`. -/
def UINT48_MAX : Nat := 0xffffffffffff

/-- Modelled from the spec: the build direction of
`message::proc48(uint64_t&)` (body not under the sources).  Spec §4.A/§8:
an unsigned 48-bit value is emitted as 6 octets big-endian; a value above
`2^48 − 1` is rejected on build with `VAL`. -/
def proc48u_build (val : Nat) : Except MNG_PARSE_ERROR_e (List Nat) :=
  if UINT48_MAX < val then .error .MNG_PARSE_ERROR_VAL
  else .ok [val / 2 ^ 40 % 256, val / 2 ^ 32 % 256, val / 2 ^ 24 % 256,
    val / 2 ^ 16 % 256, val / 2 ^ 8 % 256, val % 256]

/-- Modelled from the spec: the parse direction of
`message::proc48(uint64_t&)`.  Spec §4.A: consume 6 octets big-endian
into the low bits; fail with `TOO_SMALL` if fewer remain. -/
def proc48u_parse (l : List Nat) : Option (Nat × List Nat) :=
  match l with
  | b0 :: b1 :: b2 :: b3 :: b4 :: b5 :: rest =>
    some (b0 * 2 ^ 40 + b1 * 2 ^ 32 + b2 * 2 ^ 24 + b3 * 2 ^ 16 + b4 * 2 ^ 8 + b5,
      rest)
  | _ => none

/-- Modelled from the spec: the build direction of
`message::proc48(int64_t&)`.  Spec §4.A: "reject values outside
[INT48_MIN, INT48_MAX] when building"; an accepted value is emitted as its
48-bit two's-complement pattern, big-endian. -/
def proc48s_build (val : Int) : Except MNG_PARSE_ERROR_e (List Nat) :=
  if val < INT48_MIN ∨ INT48_MAX < val then .error .MNG_PARSE_ERROR_VAL
  else proc48u_build (val % 2 ^ 48).toNat

/-- Modelled from the spec: the parse direction of
`message::proc48(int64_t&)`.  Spec §4.A: "read 6 octets big-endian into
the low bits; sign-extend from bit 47". -/
def proc48s_parse (l : List Nat) : Option (Int × List Nat) :=
  match proc48u_parse l with
  | some (u, rest) =>
    some (if u < 2 ^ 47 then (u : Int) else (u : Int) - 2 ^ 48, rest)
  | none => none

/-- Embeds `struct Timestamp_t` from `msg.h`: `uint64_t secondsField` (48 bits on
the wire) and `uint32_t nanosecondsField`. -/
structure Timestamp_t where
  secondsField : Nat
  nanosecondsField : Nat
  deriving DecidableEq, Repr

/-- Big-endian emission of a `uint32_t` (build direction of
`message::proc(uint32_t&)`). -/
def u32be (val : Nat) : List Nat :=
  [val / 2 ^ 24 % 256, val / 2 ^ 16 % 256, val / 2 ^ 8 % 256, val % 256]

/-- Modelled from the spec: the build direction of
`message::proc(Timestamp_t&)` (body not under the sources).  Spec §3:
`Timestamp` is seconds(u48) ‖ nanoseconds(u32), 10 octets. -/
def procTimestamp_build (t : Timestamp_t) : Except MNG_PARSE_ERROR_e (List Nat) :=
  (proc48u_build t.secondsField).map
    (fun s => s ++ u32be (t.nanosecondsField % 2 ^ 32))

/-- Modelled from the spec: the parse direction of
`message::proc(Timestamp_t&)`: 6 seconds octets then 4 nanoseconds octets,
big-endian. -/
def procTimestamp_parse (l : List Nat) : Option (Timestamp_t × List Nat) :=
  match proc48u_parse l with
  | none => none
  | some (s, rest) =>
    match rest with
    | n0 :: n1 :: n2 :: n3 :: rest2 =>
      some (⟨s, n0 * 2 ^ 24 + n1 * 2 ^ 16 + n2 * 2 ^ 8 + n3⟩, rest2)
    | _ => none

/-! ### Frame engine (`message::build` / `message::parse`)

The bodies of `message::build` and `message::parse` and the generated
per-ID field processors (`ids.h`, `proc.h`) are not among the sources at
hand; the frame layout and the processor contract are modelled from the
spec (§3 message envelope, §4.D, §4.E). -/

/-- Big-endian emission of a `uint16_t`. -/
def u16be (val : Nat) : List Nat := [val / 256 % 256, val % 256]

/-- Big-endian reading of two octets. -/
def readU16 (hi lo : Nat) : Nat := hi * 256 + lo

/-- Ten-octet encoding of a `PortIdentity_t`: clock identity octets then
the port number, big-endian. -/
def encPortId (p : PortIdentity_t) : List Nat :=
  [p.clockIdentity.v0, p.clockIdentity.v1, p.clockIdentity.v2,
    p.clockIdentity.v3, p.clockIdentity.v4, p.clockIdentity.v5,
    p.clockIdentity.v6, p.clockIdentity.v7] ++ u16be p.portNumber

/-- Modelled from the spec: the 34-octet PTP header written by
`message::build` (§3, §4.E step 2): transport-specific nibble over
messageType nibble `0xD`, version 2, messageLength, domainNumber, flags
(unicast bit), correction and reserved zeroed, `sourcePortIdentity =
self_id`, sequenceId, control `0x04`, logMessageInterval `0x7F`. -/
def header34 (p : msgParams) (seq msgLen : Nat) : List Nat :=
  [p.transportSpecific % 16 * 16 + 0xD, 2] ++ u16be msgLen ++
  [p.domainNumber % 256, 0] ++ [if p.isUnicast then 4 else 0, 0] ++
  [0, 0, 0, 0, 0, 0, 0, 0] ++ [0, 0, 0, 0] ++
  encPortId p.self_id ++ u16be seq ++ [4, 0x7F]

/-- Modelled from the spec: the 14-octet management payload header (§3,
§4.E step 3): `targetPortIdentity`(10) ‖ startingBoundaryHops ‖
boundaryHops (equal) ‖ action nibble ‖ reserved. -/
def mgmtHdr (p : msgParams) (action : actionField_e) : List Nat :=
  encPortId p.target ++
  [p.boundaryHops % 256, p.boundaryHops % 256, actionNum action, 0]

/-- Modelled from the spec: `message::build` (§4.E build steps 1-5).  The
ID's encoded `dataField` is `V`; the TLV is `tlvType 0x0001` ‖
`lengthField` ‖ `managementId` ‖ `V` ‖ a zero pad octet when needed, with
`lengthField` counted from after itself (the `managementId`, the data and
the pad), and the outer `messageLength` covering everything. -/
def buildMsg (p : msgParams) (seq : Nat) (action : actionField_e) (id : Nat)
    (V : List Nat) : List Nat :=
  let pad := V.length % 2
  let lenField := 2 + V.length + pad
  let total := 52 + lenField
  header34 p seq total ++ mgmtHdr p action ++
  u16be 1 ++ u16be lenField ++ u16be id ++ V ++ List.replicate pad 0

/-- The parsed state `message::parse` exposes: `m_sequence`, `m_peer`,
`m_isUnicast`, the reply action, `m_tlv_id` and the decoded `dataField`
octets (`m_dataGet`). -/
structure ParsedMsg where
  sequence : Nat
  peer : PortIdentity_t
  isUnicast : Bool
  action : actionField_e
  tlv_id : Nat
  data : List Nat
  deriving DecidableEq, Repr

/-- Modelled from the spec: `message::parse` (§4.E parse steps 1-6) over
an abstract per-ID field processor.  `consume id region` is the number of
octets the ID's processor decodes from the TLV data region (`none` on a
processor failure).  The parse validates messageType, version, the outer
length against the buffer, the control field, accepts `tlvType ∈ {1, 2}`,
rejects an odd TLV `lengthField`, checks the buffer holds the declared TLV,
and hands the data region to the processor; the decoded value is the
octets the processor consumed. -/
def parseMsg (consume : Nat → List Nat → Option Nat) (buf : List Nat) :
    Option ParsedMsg :=
  let at0 := fun i => buf.getD i 0
  if buf.length < 54 then none
  else if at0 0 % 16 ≠ 0xD then none
  else if at0 1 ≠ 2 then none
  else if readU16 (at0 2) (at0 3) ≠ buf.length then none
  else if at0 32 ≠ 4 then none
  else
    match actionOfNum (at0 46 % 16) with
    | none => none
    | some act =>
      let tlvType := readU16 (at0 48) (at0 49)
      if tlvType ≠ 1 ∧ tlvType ≠ 2 then none
      else
        let lenField := readU16 (at0 50) (at0 51)
        if lenField % 2 ≠ 0 then none
        else if lenField < 2 then none
        else if buf.length < 52 + lenField then none
        else
          let id := readU16 (at0 52) (at0 53)
          let region := (buf.drop 54).take (lenField - 2)
          match consume id region with
          | none => none
          | some n =>
            if n ≤ lenField - 2 then
              some ⟨readU16 (at0 30) (at0 31),
                ⟨⟨at0 20, at0 21, at0 22, at0 23, at0 24, at0 25, at0 26,
                  at0 27⟩, readU16 (at0 28) (at0 29)⟩,
                at0 6 / 4 % 2 = 1, act, id, region.take n⟩
            else none

/-- A payload `V` is legal for ID `id` under processor `consume` when the
processor, run on `V` followed by anything (the pad octet, in
particular), decodes exactly `V`: the spec's §4.D round-trip contract of
the direction-agnostic per-ID processors. -/
def LegalPayload (consume : Nat → List Nat → Option Nat) (id : Nat)
    (V : List Nat) : Prop :=
  ∀ rest : List Nat, consume id (V ++ rest) = some V.length

/-! ### Concrete fixtures used by witnesses -/

/-- A concrete clock identity. -/
def cidTest : ClockIdentity_t := ⟨1, 2, 3, 4, 5, 6, 7, 8⟩

/-- A concrete port identity. -/
def pidTest : PortIdentity_t := ⟨cidTest, 1⟩

/-- Concrete runtime parameters. -/
def prmsTest : msgParams :=
  ⟨0, 0, 1, false, false, ⟨⟨255, 255, 255, 255, 255, 255, 255, 255⟩, 65535⟩,
    pidTest⟩

/-- A concrete message state. -/
def msgTest : message := ⟨prmsTest⟩

/-- A concrete builder environment: ID 0 is empty, ID 5 has a `UFB` case
with an overridden callback that succeeds, ID 6 has a case whose callback
is not overridden (the base default fails), and both `setAction` overloads
succeed without touching the message. -/
def envTest : BuildEnv where
  isEmpty := fun id => id == 0
  hasCase := fun id => id == 5 || id == 6
  defaultVal := fun _ => [0, 0]
  overridden := fun id => id == 5
  cb := fun id _ _ => if id == 5 then ([7, 7], true) else ([0, 0], false)
  setAct2 := fun _ _ m => (m, true)
  setAct3 := fun _ _ _ m => (m, true)

/-- A concrete builder state owning no typed value. -/
def bldTest : MessageBulder := ⟨msgTest, none⟩

/-- A concrete dispatcher environment: ID 5 has a `UF` case, no handler is
overridden. -/
def dspTest : DispatchEnv where
  hasCase := fun id => id == 5
  overridden := fun _ => false
  name := fun id => if id == 5 then "PRIORITY1" else "?"

/-- A concrete per-ID processor for the round-trip witness: every ID
consumes two octets. -/
def consumeTest : Nat → List Nat → Option Nat := fun _ _ => some 2

/-! ### Claim theorems: builder and dispatcher -/

/-- C2: for every action and management ID, if the action is GET or the ID
has an empty request payload, `MessageBulder::buildTlv` returns the result
of `setAction(action, id)` — the builder state keeps its owned value
untouched (no allocation, no typed value attached), and the only effect is
that single two-argument `setAction` call. -/
theorem buildTlv_get_or_empty (env : BuildEnv) (st : MessageBulder)
    (a : actionField_e) (id : Nat) (h : a = .GET ∨ env.isEmpty id = true) :
    buildTlv env st a id =
      ({ st with m_msg := (env.setAct2 a id st.m_msg).1 },
        (env.setAct2 a id st.m_msg).2, [.setAction2 a id]) := by
  rcases h with h | h <;> simp [buildTlv, h]

/-- Closed instance of `buildTlv_get_or_empty` at a concrete input. -/
theorem buildTlv_get_or_empty_witness :
    buildTlv envTest bldTest .GET 5 =
      (bldTest, true, [.setAction2 .GET 5]) :=
  (buildTlv_get_or_empty envTest bldTest .GET 5 (Or.inl rfl)).trans (by rfl)

/-- C3: for every non-GET action on a management ID with a non-empty
payload and a builder case, when the per-ID build callback run on the
default-constructed typed value succeeds, `buildTlv` stores the populated
value in `m_tlv` (owning it until the next build call or destruction),
attaches it via the three-argument `setAction`, and returns that call's
result; the effect trace is exactly allocation, callback, `setAction`. -/
theorem buildTlv_build_success (env : BuildEnv) (st : MessageBulder)
    (a : actionField_e) (id : Nat)
    (hga : a ≠ .GET) (he : env.isEmpty id = false)
    (hc : env.hasCase id = true)
    (hcb : (env.cb id st.m_msg (env.defaultVal id)).2 = true) :
    buildTlv env st a id =
      ({ m_msg := (env.setAct3 a id (env.cb id st.m_msg (env.defaultVal id)).1 st.m_msg).1,
          m_tlv := some (env.cb id st.m_msg (env.defaultVal id)).1 },
        (env.setAct3 a id (env.cb id st.m_msg (env.defaultVal id)).1 st.m_msg).2,
        [.alloc id, .callback id,
          .setAction3 a id (env.cb id st.m_msg (env.defaultVal id)).1]) := by
  simp [buildTlv, hga, he, hc, hcb]

/-- Closed instance of `buildTlv_build_success` at a concrete input. -/
theorem buildTlv_build_success_witness :
    buildTlv envTest bldTest .SET 5 =
      (⟨msgTest, some [7, 7]⟩, true, [.alloc 5, .callback 5, .setAction3 .SET 5 [7, 7]]) :=
  (buildTlv_build_success envTest bldTest .SET 5 (by decide) (by decide)
    (by decide) (by decide)).trans (by rfl)

/-- C9: for every non-GET action on a non-empty management ID, if the ID
has no builder case or the build callback fails, `buildTlv` returns
`false` and the builder state (message and owned value) is unchanged; the
effect trace is exactly allocation, callback, deletion when there was a
case (the allocated value is deleted), and empty otherwise — in
particular no `setAction` call happens. -/
theorem buildTlv_build_failure (env : BuildEnv) (st : MessageBulder)
    (a : actionField_e) (id : Nat)
    (hga : a ≠ .GET) (he : env.isEmpty id = false)
    (h : env.hasCase id = false ∨
      (env.cb id st.m_msg (env.defaultVal id)).2 = false) :
    buildTlv env st a id =
      (st, false,
        if env.hasCase id then [.alloc id, .callback id, .dealloc id]
        else []) := by
  rcases h with h | h
  · simp [buildTlv, hga, he, h]
  · by_cases hc : env.hasCase id = true
    · simp [buildTlv, hga, he, hc, h]
    · simp [buildTlv, hga, he, Bool.of_not_eq_true hc]

/-- Closed instance of `buildTlv_build_failure` at a concrete input (ID 6:
case present, callback fails). -/
theorem buildTlv_build_failure_witness :
    buildTlv envTest bldTest .SET 6 =
      (bldTest, false, [.alloc 6, .callback 6, .dealloc 6]) :=
  (buildTlv_build_failure envTest bldTest .SET 6 (by decide) (by decide)
    (Or.inr (by decide))).trans (by rfl)

/-- C10: the python `MessageBulder.buildTlv` and the C++ one agree, for
every action and ID, on the boolean result and on the sequence of
`setAction` effects, given the framework fact that a build callback that
is not overridden is the failing base default (the python builder skips
the call via `hasattr`, the C++ one calls the base which fails). -/
theorem buildTlv_python_equiv (env : BuildEnv) (st : MessageBulder)
    (a : actionField_e) (id : Nat)
    (hbase : env.overridden id = false →
      (env.cb id st.m_msg (env.defaultVal id)).2 = false) :
    (buildTlv env st a id).2.1 = (pyBuildTlv env st a id).2.1 ∧
      ((buildTlv env st a id).2.2).filter BuildEv.isSetAct =
        ((pyBuildTlv env st a id).2.2).filter BuildEv.isSetAct := by
  by_cases h1 : a = .GET ∨ env.isEmpty id = true
  · rcases h1 with h | h <;> simp [buildTlv, pyBuildTlv, h]
  · push_neg at h1
    obtain ⟨hga, he⟩ := h1
    have he' : env.isEmpty id = false := by
      revert he; cases env.isEmpty id <;> simp
    by_cases hc : env.hasCase id = true
    · by_cases ho : env.overridden id = true
      · by_cases hcb : (env.cb id st.m_msg (env.defaultVal id)).2 = true
        · by_cases hs : (env.setAct3 a id (env.cb id st.m_msg (env.defaultVal id)).1 st.m_msg).2 = true
          · simp [buildTlv, pyBuildTlv, hga, he', hc, ho, hcb, hs,
              BuildEv.isSetAct]
          · have hs' : (env.setAct3 a id (env.cb id st.m_msg (env.defaultVal id)).1 st.m_msg).2 = false := by
              revert hs
              cases (env.setAct3 a id (env.cb id st.m_msg (env.defaultVal id)).1 st.m_msg).2 <;> simp
            simp [buildTlv, pyBuildTlv, hga, he', hc, ho, hcb, hs',
              BuildEv.isSetAct]
        · have hcb' : (env.cb id st.m_msg (env.defaultVal id)).2 = false := by
            revert hcb
            cases (env.cb id st.m_msg (env.defaultVal id)).2 <;> simp
          simp [buildTlv, pyBuildTlv, hga, he', hc, ho, hcb',
            BuildEv.isSetAct]
      · have ho' : env.overridden id = false := by
          revert ho; cases env.overridden id <;> simp
        have hcb' := hbase ho'
        simp [buildTlv, pyBuildTlv, hga, he', hc, ho', hcb',
          BuildEv.isSetAct]
    · have hc' : env.hasCase id = false := by
        revert hc; cases env.hasCase id <;> simp
      simp [buildTlv, pyBuildTlv, hga, he', hc', BuildEv.isSetAct]

/-- Closed instance of `buildTlv_python_equiv` at a concrete input. -/
theorem buildTlv_python_equiv_witness :
    (buildTlv envTest bldTest .SET 6).2.1 = (pyBuildTlv envTest bldTest .SET 6).2.1 ∧
      ((buildTlv envTest bldTest .SET 6).2.2).filter BuildEv.isSetAct =
        ((pyBuildTlv envTest bldTest .SET 6).2.2).filter BuildEv.isSetAct :=
  buildTlv_python_equiv envTest bldTest .SET 6 (fun _ => by decide)

/-- C4: for every message whose decoded TLV data is null, the dispatcher
invokes `noTlv(message)` and nothing else — no per-ID handler and no
`noTlvCallBack`. -/
theorem callHadler_null_tlv (env : DispatchEnv) (tlv_id : Nat) :
    callHadler env tlv_id none = [DispatchEv.noTlv] := rfl

/-- C5: for every message carrying a TLV whose per-ID handler is not
overridden (it still resolves to the base no-op), the dispatcher invokes
exactly `noTlvCallBack(message, idName)` with the ID's name, and the base
handler is not invoked. -/
theorem callHadler_not_overridden (env : DispatchEnv) (tlv_id : Nat)
    (t : TlvData) (hc : env.hasCase tlv_id = true)
    (ho : env.overridden tlv_id = false) :
    callHadler env tlv_id (some t) =
      [DispatchEv.noTlvCallBack (env.name tlv_id)] := by
  simp [callHadler, hc, ho]

/-- Closed instance of `callHadler_not_overridden` at a concrete input. -/
theorem callHadler_not_overridden_witness :
    callHadler dspTest 5 (some [0]) = [DispatchEv.noTlvCallBack "PRIORITY1"] :=
  (callHadler_not_overridden dspTest 5 [0] (by decide) (by decide)).trans
    (by rfl)

/-! ### Claim theorems: parameters, intervals, 48-bit values -/

/-- C6: `updateParams` succeeds exactly when `domainNumber` and
`boundaryHops` are at most 255, and on success the runtime parameters are
replaced by the given ones. -/
theorem updateParams_spec (st : message) (p : msgParams) :
    ((updateParams st p).2 = true ↔
      p.domainNumber ≤ 255 ∧ p.boundaryHops ≤ 255) ∧
    ((updateParams st p).2 = true → (updateParams st p).1.prms = p) := by
  constructor
  · unfold updateParams
    split
    · next h => simp; omega
    · next h => simp; omega
  · intro h
    unfold updateParams at h ⊢
    by_cases hc : 255 < p.domainNumber ∨ 255 < p.boundaryHops
    · rw [if_pos hc] at h
      simp at h
    · rw [if_neg hc]

/-- Closed instance of `updateParams_spec` at a concrete input. -/
theorem updateParams_spec_witness :
    (updateParams msgTest prmsTest).2 = true ∧
      (updateParams msgTest prmsTest).1.prms = prmsTest := by
  have h := updateParams_spec msgTest prmsTest
  have hs : (updateParams msgTest prmsTest).2 = true :=
    h.1.mpr (by constructor <;> decide)
  exact ⟨hs, h.2 hs⟩

/-- C7 (code evaluated at the failing input): the source declares
`scaledNanoseconds` as `uint64_t`, so `getInterval` on the bit pattern
`0xFFFFFFFFFFFFFFFF` — which as the signed 64-bit quantity the spec
describes is −1, i.e. −1/65536 scaled nanoseconds — returns the large
positive value `(2^64 − 1)/65536` instead of a negative one.  The divisor
65536 itself matches the spec. -/
theorem getInterval_unsigned_divergence :
    getInterval ⟨2 ^ 64 - 1⟩ = ((2 ^ 64 - 1 : ℕ) : ℚ) / 65536 ∧
    0 < getInterval ⟨2 ^ 64 - 1⟩ ∧
    getIntervalSigned ⟨2 ^ 64 - 1⟩ = -1 / 65536 ∧
    getIntervalSigned ⟨2 ^ 64 - 1⟩ < 0 := by
  refine ⟨rfl, ?_, ?_, ?_⟩
  · unfold getInterval
    norm_num
  · unfold getIntervalSigned toSigned64
    norm_num
  · unfold getIntervalSigned toSigned64
    norm_num

/-- C8: a Timestamp whose 48-bit seconds field is `2^48 − 1` builds and
parses back to itself; seconds `2^48` is rejected on build with `VAL`;
and every signed 48-bit build outside `[INT48_MIN, INT48_MAX]` is likewise
rejected with `VAL`. -/
theorem timestamp48_range (n : Nat) (hn : n < 2 ^ 32) :
    (∃ bytes, procTimestamp_build ⟨2 ^ 48 - 1, n⟩ = .ok bytes ∧
      procTimestamp_parse bytes = some (⟨2 ^ 48 - 1, n⟩, [])) ∧
    procTimestamp_build ⟨2 ^ 48, n⟩ = .error .MNG_PARSE_ERROR_VAL ∧
    (∀ v : Int, v < INT48_MIN ∨ INT48_MAX < v →
      proc48s_build v = .error .MNG_PARSE_ERROR_VAL) := by
  have hmod : n % 2 ^ 32 = n := Nat.mod_eq_of_lt hn
  have h1 : proc48u_build (2 ^ 48 - 1) = .ok [255, 255, 255, 255, 255, 255] := by
    unfold proc48u_build UINT48_MAX
    rw [if_neg (by norm_num)]
    norm_num
  refine ⟨⟨[255, 255, 255, 255, 255, 255] ++ u32be n, ?_, ?_⟩, ?_, ?_⟩
  · simp only [procTimestamp_build]
    simp only [h1]
    simp only [Except.map, hmod]
  · unfold u32be
    simp only [List.cons_append, List.nil_append]
    unfold procTimestamp_parse proc48u_parse
    simp only [Option.some.injEq, Prod.mk.injEq, Timestamp_t.mk.injEq]
    refine ⟨⟨by norm_num, by omega⟩, trivial⟩
  · have h2 : proc48u_build (2 ^ 48) = .error .MNG_PARSE_ERROR_VAL := by
      unfold proc48u_build UINT48_MAX
      rw [if_pos (by norm_num)]
    simp only [procTimestamp_build]
    simp only [h2]
    simp only [Except.map]
  · intro v hv
    unfold proc48s_build
    rw [if_pos hv]

/-- Closed instance of `timestamp48_range` at a concrete input. -/
theorem timestamp48_range_witness :
    (∃ bytes, procTimestamp_build ⟨2 ^ 48 - 1, 0⟩ = .ok bytes ∧
      procTimestamp_parse bytes = some (⟨2 ^ 48 - 1, 0⟩, [])) ∧
    procTimestamp_build ⟨2 ^ 48, 0⟩ = .error .MNG_PARSE_ERROR_VAL ∧
    (∀ v : Int, v < INT48_MIN ∨ INT48_MAX < v →
      proc48s_build v = .error .MNG_PARSE_ERROR_VAL) :=
  timestamp48_range 0 (by norm_num)

/-! ### Claim theorems: build/parse round trip -/

/-- Parsing the output of a build recovers the frame fields and the exact
payload octets.  The peer is the builder's `self_id` (its port number read
back modulo `2^16`). -/
theorem parse_of_build (consume : Nat → List Nat → Option Nat)
    (p : msgParams) (seq id : Nat) (V : List Nat)
    (hleg : LegalPayload consume id V) (hseq : seq < 65536) (hid : id < 65536)
    (hV : V.length ≤ 65000) :
    parseMsg consume (buildMsg p seq .SET id V) =
      some ⟨seq, ⟨p.self_id.clockIdentity, p.self_id.portNumber % 65536⟩,
        p.isUnicast, .SET, id, V⟩ := by
  simp only [buildMsg, header34, mgmtHdr, encPortId, u16be, actionNum,
    List.cons_append, List.nil_append]
  simp only [parseMsg, List.getD_cons_succ, List.getD_cons_zero,
    List.length_cons, List.length_append, List.length_replicate, readU16,
    List.drop_succ_cons, List.drop_zero]
  have hseq' : seq / 256 % 256 * 256 + seq % 256 = seq := by omega
  have hid' : id / 256 % 256 * 256 + id % 256 = id := by omega
  have hpn : p.self_id.portNumber / 256 % 256 * 256 + p.self_id.portNumber % 256 =
      p.self_id.portNumber % 65536 := by omega
  rw [hseq', hid', hpn]
  rw [if_neg (by omega)]
  rw [if_neg (by omega)]
  rw [if_neg (by omega)]
  rw [if_neg (by omega)]
  rw [if_neg (by omega)]
  rw [show (1 : Nat) % 16 = 1 from rfl]
  simp only [actionOfNum]
  rw [if_neg (by omega)]
  rw [if_neg (by omega)]
  rw [if_neg (by omega)]
  rw [if_neg (by omega)]
  rw [List.take_of_length_le
    (by simp only [List.length_append, List.length_replicate]; omega)]
  rw [hleg (List.replicate (V.length % 2) 0)]
  simp only [List.take_left]
  rw [if_pos (by omega)]
  cases hu : p.isUnicast <;> simp

/-- C1: for every management ID with a legal SET payload `V` (one its
per-ID processor decodes back in full), parsing the built buffer yields a
decoded value equal to `V` byte-by-byte, and rebuilding from the parsed
state reproduces the first build buffer exactly (the required even-length
pad byte is part of both buffers). -/
theorem build_parse_roundtrip (consume : Nat → List Nat → Option Nat)
    (p : msgParams) (seq id : Nat) (V : List Nat)
    (hleg : LegalPayload consume id V) (hseq : seq < 65536) (hid : id < 65536)
    (hV : V.length ≤ 65000) :
    ∃ st : ParsedMsg,
      parseMsg consume (buildMsg p seq .SET id V) = some st ∧
      st.data = V ∧ st.tlv_id = id ∧ st.action = .SET ∧
      buildMsg p st.sequence st.action st.tlv_id st.data =
        buildMsg p seq .SET id V :=
  ⟨_, parse_of_build consume p seq id V hleg hseq hid hV, rfl, rfl, rfl, rfl⟩

/-- Closed instance of `build_parse_roundtrip`: a two-octet payload under
a processor that decodes exactly two octets. -/
theorem build_parse_roundtrip_witness :
    ∃ st : ParsedMsg,
      parseMsg consumeTest (buildMsg prmsTest 1 .SET 5 [128, 0]) = some st ∧
      st.data = [128, 0] ∧ st.tlv_id = 5 ∧ st.action = .SET ∧
      buildMsg prmsTest st.sequence st.action st.tlv_id st.data =
        buildMsg prmsTest 1 .SET 5 [128, 0] :=
  build_parse_roundtrip consumeTest prmsTest 1 5 [128, 0]
    (fun rest => rfl) (by norm_num) (by norm_num) (by norm_num)

end Ptpmgmt
